import Mathlib

/-!
Verification of the `secrets.h` header of the ESP8266-Weather-EPaper
repository.  The file is a C preprocessor text: an include guard
(`#ifndef SECRETS_H` / `#define SECRETS_H` / `#endif`) around four
object-like `#define`s whose replacement text is a string literal.
We embed the preprocessor semantics of exactly the constructs the file
uses: a macro table (a list of name/replacement pairs), and a
line-by-line processor that handles comments, blank lines, `#ifndef`,
`#define`, `#undef` and `#endif` at a single conditional nesting depth
(the file only ever uses depth one).
-/

namespace WeatherEPaper

/-- The replacement text of an object-like preprocessor definition in
`secrets.h`: either empty (the include-guard symbol) or a single string
literal. -/
inductive Replacement where
  | empty : Replacement
  | stringLit : String → Replacement
deriving DecidableEq, Repr

/-- One line of the header, after comment stripping: a comment line, a
blank line, or one of the directives the C preprocessor recognises that
occur in (or are relevant to) `secrets.h`. -/
inductive PPLine where
  | comment : PPLine
  | blank : PPLine
  | ifndefLine : String → PPLine
  | defineLine : String → Replacement → PPLine
  | undefLine : String → PPLine
  | endifLine : PPLine
deriving DecidableEq, Repr

/-- A macro table: the definitions the preprocessor has accumulated, in
order of definition. -/
abbrev MacroTable := List (String × Replacement)

/-- Whether a name is currently defined in the table (the `#ifndef`
test). -/
def isDefined (st : MacroTable) (n : String) : Bool :=
  st.any (fun p => p.1 == n)

/-- Process a list of lines.  `sk` is true while we are inside a failed
`#ifndef` region, in which case every line up to the matching `#endif`
is skipped.  The file has a single conditional level, so one flag
suffices. -/
def processLines : List PPLine → Bool → MacroTable → MacroTable
  | [], _, st => st
  | PPLine.comment :: ls, sk, st => processLines ls sk st
  | PPLine.blank :: ls, sk, st => processLines ls sk st
  | PPLine.ifndefLine n :: ls, sk, st =>
      processLines ls (sk || isDefined st n) st
  | PPLine.defineLine n r :: ls, sk, st =>
      processLines ls sk (if sk then st else st ++ [(n, r)])
  | PPLine.undefLine n :: ls, sk, st =>
      processLines ls sk (if sk then st else st.filter (fun p => p.1 != n))
  | PPLine.endifLine :: ls, _, st => processLines ls false st

/-- The nineteen lines of `src/ESP8266-Weather-EPaper/secrets.h`, in
source order (the two leading comment lines hold Russian text irrelevant
to the preprocessor). -/
def secretsHLines : List PPLine :=
  [ PPLine.comment
  , PPLine.comment
  , PPLine.blank
  , PPLine.ifndefLine "SECRETS_H"
  , PPLine.defineLine "SECRETS_H" Replacement.empty
  , PPLine.blank
  , PPLine.comment
  , PPLine.defineLine "SECRET_WIFI_SSID" (Replacement.stringLit "YourWIFI")
  , PPLine.blank
  , PPLine.comment
  , PPLine.defineLine "SECRET_WIFI_PASSWORD" (Replacement.stringLit "YourPassword")
  , PPLine.blank
  , PPLine.comment
  , PPLine.defineLine "SECRET_WEATHER_API_KEY" (Replacement.stringLit "YourAPIKey")
  , PPLine.blank
  , PPLine.comment
  , PPLine.defineLine "SECRET_WEATHER_CITY" (Replacement.stringLit "Moscow,ru")
  , PPLine.blank
  , PPLine.endifLine ]

/-- The effect of `#include "secrets.h"` on a macro table. -/
def includeSecretsH (st : MacroTable) : MacroTable :=
  processLines secretsHLines false st

/-- The replacement a name currently has, if any (first definition
wins, as the table never holds duplicates for this file). -/
def lookupDef (st : MacroTable) (n : String) : Option Replacement :=
  (st.find? (fun p => p.1 == n)).map Prod.snd

/-- The value of the `SECRET_WIFI_SSID` macro (secrets.h line 8). -/
def SECRET_WIFI_SSID : String := "YourWIFI"

/-- The value of the `SECRET_WIFI_PASSWORD` macro (secrets.h line 11). -/
def SECRET_WIFI_PASSWORD : String := "YourPassword"

/-- The value of the `SECRET_WEATHER_API_KEY` macro (secrets.h line 14). -/
def SECRET_WEATHER_API_KEY : String := "YourAPIKey"

/-- The value of the `SECRET_WEATHER_CITY` macro (secrets.h line 17). -/
def SECRET_WEATHER_CITY : String := "Moscow,ru"

/-- The four credential macro names the header documents. -/
def credentialNames : List String :=
  [ "SECRET_WIFI_SSID", "SECRET_WIFI_PASSWORD"
  , "SECRET_WEATHER_API_KEY", "SECRET_WEATHER_CITY" ]

/-- The spec's view of the fragment: "a pure record of four constant
strings" (Wi-Fi SSID, Wi-Fi password, weather-API key, city query). -/
structure SecretsRecord where
  wifiSSID : String
  wifiPassword : String
  weatherAPIKey : String
  weatherCity : String
deriving DecidableEq, Repr

/-- The record holding the four constants of `secrets.h`. -/
def specSecretsRecord : SecretsRecord :=
  { wifiSSID := SECRET_WIFI_SSID
  , wifiPassword := SECRET_WIFI_PASSWORD
  , weatherAPIKey := SECRET_WEATHER_API_KEY
  , weatherCity := SECRET_WEATHER_CITY }

/-- The macro-table bindings a `SecretsRecord` corresponds to. -/
def tableOfRecord (r : SecretsRecord) : MacroTable :=
  [ ("SECRET_WIFI_SSID", Replacement.stringLit r.wifiSSID)
  , ("SECRET_WIFI_PASSWORD", Replacement.stringLit r.wifiPassword)
  , ("SECRET_WEATHER_API_KEY", Replacement.stringLit r.weatherAPIKey)
  , ("SECRET_WEATHER_CITY", Replacement.stringLit r.weatherCity) ]

/-- The part of a city-query string before its first comma. -/
def cityPart (s : String) : String :=
  String.mk (s.toList.takeWhile (fun c => c ≠ ','))

/-- The part of a city-query string after its first comma (empty when
there is no comma). -/
def countryPart (s : String) : String :=
  String.mk ((s.toList.dropWhile (fun c => c ≠ ',')).drop 1)

/-- How many commas a string contains. -/
def commaCount (s : String) : Nat :=
  s.toList.count ','

/-- A two-letter code: exactly two characters, both alphabetic. -/
def isTwoLetterCode (s : String) : Bool :=
  s.length == 2 && s.toList.all Char.isAlpha

/-- A lowercase ASCII letter. -/
def isLowerAsciiLetter (c : Char) : Bool :=
  'a' ≤ c && c ≤ 'z'

/-- Uppercase a string character by character (ASCII). -/
def upperAscii (s : String) : String :=
  String.mk (s.toList.map Char.toUpper)

/-- The 249 officially assigned ISO 3166-1 alpha-2 country codes
(uppercase, per the standard); used to interpret the spec's phrase
"ISO 3166-1 alpha-2". -/
def isoAlpha2Codes : List String :=
  [ "AD", "AE", "AF", "AG", "AI", "AL", "AM", "AO", "AQ", "AR"
  , "AS", "AT", "AU", "AW", "AX", "AZ", "BA", "BB", "BD", "BE"
  , "BF", "BG", "BH", "BI", "BJ", "BL", "BM", "BN", "BO", "BQ"
  , "BR", "BS", "BT", "BV", "BW", "BY", "BZ", "CA", "CC", "CD"
  , "CF", "CG", "CH", "CI", "CK", "CL", "CM", "CN", "CO", "CR"
  , "CU", "CV", "CW", "CX", "CY", "CZ", "DE", "DJ", "DK", "DM"
  , "DO", "DZ", "EC", "EE", "EG", "EH", "ER", "ES", "ET", "FI"
  , "FJ", "FK", "FM", "FO", "FR", "GA", "GB", "GD", "GE", "GF"
  , "GG", "GH", "GI", "GL", "GM", "GN", "GP", "GQ", "GR", "GS"
  , "GT", "GU", "GW", "GY", "HK", "HM", "HN", "HR", "HT", "HU"
  , "ID", "IE", "IL", "IM", "IN", "IO", "IQ", "IR", "IS", "IT"
  , "JE", "JM", "JO", "JP", "KE", "KG", "KH", "KI", "KM", "KN"
  , "KP", "KR", "KW", "KY", "KZ", "LA", "LB", "LC", "LI", "LK"
  , "LR", "LS", "LT", "LU", "LV", "LY", "MA", "MC", "MD", "ME"
  , "MF", "MG", "MH", "MK", "ML", "MM", "MN", "MO", "MP", "MQ"
  , "MR", "MS", "MT", "MU", "MV", "MW", "MX", "MY", "MZ", "NA"
  , "NC", "NE", "NF", "NG", "NI", "NL", "NO", "NP", "NR", "NU"
  , "NZ", "OM", "PA", "PE", "PF", "PG", "PH", "PK", "PL", "PM"
  , "PN", "PR", "PS", "PT", "PW", "PY", "QA", "RE", "RO", "RS"
  , "RU", "RW", "SA", "SB", "SC", "SD", "SE", "SG", "SH", "SI"
  , "SJ", "SK", "SL", "SM", "SN", "SO", "SR", "SS", "ST", "SV"
  , "SX", "SY", "SZ", "TC", "TD", "TF", "TG", "TH", "TJ", "TK"
  , "TL", "TM", "TN", "TO", "TR", "TT", "TV", "TW", "TZ", "UA"
  , "UG", "UM", "US", "UY", "UZ", "VA", "VC", "VE", "VG", "VI"
  , "VN", "VU", "WF", "WS", "YE", "YT", "ZA", "ZM", "ZW" ]

/-- How many `#define` lines of a file define a given name. -/
def defineCount (ls : List PPLine) (n : String) : Nat :=
  (ls.filter (fun l =>
    match l with
    | PPLine.defineLine m _ => m == n
    | _ => false)).length

/-- Whether a file contains any `#undef` line. -/
def hasUndef (ls : List PPLine) : Bool :=
  ls.any (fun l =>
    match l with
    | PPLine.undefLine _ => true
    | _ => false)

/-- A replacement that, when it is a string literal, is a non-empty
one. -/
def litNonEmpty : Replacement → Bool
  | Replacement.empty => true
  | Replacement.stringLit s => !s.isEmpty

/-- When the guard symbol is already defined, including `secrets.h`
leaves the macro table unchanged. -/
theorem includeSecretsH_of_defined (st : MacroTable)
    (h : isDefined st "SECRETS_H" = true) : includeSecretsH st = st := by
  simp [includeSecretsH, secretsHLines, processLines, h]

/-- When the guard symbol is not yet defined, including `secrets.h`
appends the guard binding and the four credential bindings. -/
theorem includeSecretsH_of_undefined (st : MacroTable)
    (h : isDefined st "SECRETS_H" = false) :
    includeSecretsH st =
      st ++ ("SECRETS_H", Replacement.empty) :: tableOfRecord specSecretsRecord := by
  simp [includeSecretsH, secretsHLines, processLines, h, tableOfRecord,
    specSecretsRecord, SECRET_WIFI_SSID, SECRET_WIFI_PASSWORD,
    SECRET_WEATHER_API_KEY, SECRET_WEATHER_CITY]

/-- After any inclusion of `secrets.h`, the guard symbol is defined. -/
theorem isDefined_includeSecretsH (st : MacroTable) :
    isDefined (includeSecretsH st) "SECRETS_H" = true := by
  cases h : isDefined st "SECRETS_H" with
  | true => rw [includeSecretsH_of_defined st h]; exact h
  | false =>
      rw [includeSecretsH_of_undefined st h]
      simp [isDefined]

/-- Claim C1, counterexample: the header does not define only the four
named credential macros — including it into an empty table also defines
the include-guard symbol `SECRETS_H`, which is not one of the four, so
"no other macros" fails at the concrete name `SECRETS_H`. -/
theorem c1_counterexample :
    isDefined (includeSecretsH []) "SECRETS_H" = true ∧
    "SECRETS_H" ∉ credentialNames := by
  decide

/-- Claim C1 (amended): when the header is included into an empty
table, it defines exactly the four named macros
`SECRET_WIFI_SSID`, `SECRET_WIFI_PASSWORD`, `SECRET_WEATHER_API_KEY`
and `SECRET_WEATHER_CITY`, each as a string literal, plus the
include-guard symbol `SECRETS_H` (with empty replacement), and no other
macros. -/
theorem c1_exact_definitions :
    includeSecretsH [] =
      [ ("SECRETS_H", Replacement.empty)
      , ("SECRET_WIFI_SSID", Replacement.stringLit "YourWIFI")
      , ("SECRET_WIFI_PASSWORD", Replacement.stringLit "YourPassword")
      , ("SECRET_WEATHER_API_KEY", Replacement.stringLit "YourAPIKey")
      , ("SECRET_WEATHER_CITY", Replacement.stringLit "Moscow,ru") ] := by
  decide

/-- Claim C2: inclusion of `secrets.h` is idempotent — whatever the
macro table before the first inclusion, every inclusion after the first
is a no-op, so including the header twice yields exactly the table of
including it once and multiple inclusion never redefines anything. -/
theorem c2_include_idempotent (st : MacroTable) :
    includeSecretsH (includeSecretsH st) = includeSecretsH st :=
  includeSecretsH_of_defined (includeSecretsH st) (isDefined_includeSecretsH st)

/-- Claim C3: `SECRET_WEATHER_CITY` has the form
`"<City>,<CountryCode>"` — a non-empty city name, a comma, and a
country code that (up to the lowercase spelling used in the file) is an
officially assigned ISO 3166-1 alpha-2 two-letter code. -/
theorem c3_city_query_format :
    cityPart SECRET_WEATHER_CITY ≠ "" ∧
    SECRET_WEATHER_CITY =
      cityPart SECRET_WEATHER_CITY ++ "," ++ countryPart SECRET_WEATHER_CITY ∧
    isTwoLetterCode (countryPart SECRET_WEATHER_CITY) = true ∧
    upperAscii (countryPart SECRET_WEATHER_CITY) ∈ isoAlpha2Codes := by
  decide

/-- Claim C4: every string-literal macro the header defines expands to
a non-empty literal; in particular the Wi-Fi SSID is non-empty. -/
theorem c4_literals_non_empty :
    ((includeSecretsH []).all fun p => litNonEmpty p.2) = true ∧
    SECRET_WIFI_SSID ≠ "" ∧
    lookupDef (includeSecretsH []) "SECRET_WIFI_SSID" =
      some (Replacement.stringLit SECRET_WIFI_SSID) := by
  decide

/-- Claim C5: each of the four credential macros is defined by exactly
one `#define` line of the file, the file contains no `#undef` line, and
the resulting macro table binds each name exactly once (no duplicate
names), so every read observes the same value. -/
theorem c5_defined_exactly_once :
    (credentialNames.all fun n => defineCount secretsHLines n == 1) = true ∧
    hasUndef secretsHLines = false ∧
    ((includeSecretsH []).map Prod.fst).Nodup := by
  decide

/-- Claim C6: the header's whole effect is that of a pure record of
four constant strings — including it either changes nothing (guard
already set) or appends exactly the guard binding plus the four
bindings of `specSecretsRecord`; no other operation, control flow or
failure behaviour exists. -/
theorem c6_refines_record (st : MacroTable) :
    includeSecretsH st = st ∨
    includeSecretsH st =
      st ++ ("SECRETS_H", Replacement.empty) :: tableOfRecord specSecretsRecord := by
  cases h : isDefined st "SECRETS_H" with
  | true => exact Or.inl (includeSecretsH_of_defined st h)
  | false => exact Or.inr (includeSecretsH_of_undefined st h)

/-- Claim C7: including the header into an empty table defines five
macros in total: the four documented credential macros and the
include-guard symbol `SECRETS_H`, which is not one of the four. -/
theorem c7_guard_is_fifth_definition :
    lookupDef (includeSecretsH []) "SECRETS_H" = some Replacement.empty ∧
    "SECRETS_H" ∉ credentialNames ∧
    (includeSecretsH []).length = credentialNames.length + 1 := by
  decide

/-- Claim C8: the value of `SECRET_WEATHER_CITY` contains exactly one
comma; splitting at the first comma yields city `"Moscow"` and country
`"ru"`, and the country part is exactly two lowercase ASCII letters. -/
theorem c8_city_split_unambiguous :
    commaCount SECRET_WEATHER_CITY = 1 ∧
    cityPart SECRET_WEATHER_CITY = "Moscow" ∧
    countryPart SECRET_WEATHER_CITY = "ru" ∧
    (countryPart SECRET_WEATHER_CITY).length = 2 ∧
    ((countryPart SECRET_WEATHER_CITY).toList.all isLowerAsciiLetter) = true := by
  decide

/-- Claim C9: the shipped values are the template placeholders — the
macro table produced by the header binds the four credential names to
`"YourWIFI"`, `"YourPassword"`, `"YourAPIKey"` and `"Moscow,ru"`
respectively. -/
theorem c9_placeholder_values :
    lookupDef (includeSecretsH []) "SECRET_WIFI_SSID" =
      some (Replacement.stringLit "YourWIFI") ∧
    lookupDef (includeSecretsH []) "SECRET_WIFI_PASSWORD" =
      some (Replacement.stringLit "YourPassword") ∧
    lookupDef (includeSecretsH []) "SECRET_WEATHER_API_KEY" =
      some (Replacement.stringLit "YourAPIKey") ∧
    lookupDef (includeSecretsH []) "SECRET_WEATHER_CITY" =
      some (Replacement.stringLit "Moscow,ru") ∧
    SECRET_WIFI_SSID = "YourWIFI" ∧
    SECRET_WIFI_PASSWORD = "YourPassword" ∧
    SECRET_WEATHER_API_KEY = "YourAPIKey" ∧
    SECRET_WEATHER_CITY = "Moscow,ru" := by
  decide

end WeatherEPaper
